import Mathlib

/-!
Shallow embedding of `sparse_operation_kit/experiment/dynamic_variable.py`
(class `DynamicVariable` and the free functions `export` / `assign`).

The adapter toggles one variable object between two pre-existing code
paths: "static" mode delegates to the host framework's `ResourceVariable`
base class, "dynamic" mode forwards to external native kernels
(`dummy_var_*`).  The embedding models:

* resource handles as natural-number identities (`_tf_handle`,
  `_dummy_handle`, and the active `_handle`), mirroring Python object
  identity (`is`) used by `is_static`;
* the dynamic key-value store as a total map `Int → Int` (each embedding
  row is abstracted to one exact integer value; the native kernels
  operate row-wise, so per-row structure is irrelevant to the properties
  proved here);
* delegations to the framework base class as explicit `BaseCall` result
  markers carrying the arguments verbatim, since `ResourceVariable` is
  host-framework code outside this repository;
* Python exceptions as an `Except PyError` result.
-/

namespace SOK

/-- TensorFlow dtypes that appear in `dynamic_variable.py`. -/
inductive TFDType
  | int32
  | int64
  | float32
  | float64
deriving DecidableEq, Repr

/-- A 1-d integer tensor with its dtype, used for index arguments. -/
structure Tensor where
  dtype : TFDType
  data : List Int
deriving DecidableEq, Repr

/-- `ops.IndexedSlices(values, indices, dense_shape)` with the dense
shape omitted: a sparse (index, value) delta. -/
structure IndexedSlices where
  values : List Int
  indices : Tensor
deriving DecidableEq, Repr

/-- A Python value passed as the `sparse_delta` argument: either an
`IndexedSlices` or some other object (carrying its repr string). -/
inductive PyValue
  | indexedSlices (d : IndexedSlices)
  | other (s : String)
deriving DecidableEq, Repr

/-- The Python exception classes raised in `dynamic_variable.py`. -/
inductive PyError
  | runtimeError (msg : String)
  | typeError (msg : String)
  | notImplementedError (msg : String)
  | valueError (msg : String)
  | indexError (msg : String)
deriving DecidableEq, Repr

/-- `True` exactly on `Except.error (PyError.runtimeError _)`. -/
def raisesRuntimeError {α : Type} : Except PyError α → Bool
  | Except.error (PyError.runtimeError _) => true
  | _ => false

/-- `True` exactly on `Except.error (PyError.typeError _)`. -/
def raisesTypeError {α : Type} : Except PyError α → Bool
  | Except.error (PyError.typeError _) => true
  | _ => false

/-- `True` exactly on `Except.error (PyError.notImplementedError _)`. -/
def raisesNotImplementedError {α : Type} : Except PyError α → Bool
  | Except.error (PyError.notImplementedError _) => true
  | _ => false

/-- Whether a `PyValue` is an `IndexedSlices`. -/
def PyValue.isIndexedSlices : PyValue → Bool
  | PyValue.indexedSlices _ => true
  | PyValue.other _ => false

/-- Modelled from the spec: `dummy_var_sparse_read(handle, indices)` is the
native kernel (outside this repository) that reads the current rows of the
dynamic store at `indices`. -/
def dummy_var_sparse_read (store : Int → Int) (indices : List Int) : List Int :=
  indices.map store

/-- Modelled from the spec: `dummy_var_scatter_add(handle, indices, values)`
is the native kernel that adds each value to the row at the paired index,
processing the pairs in order. -/
def dummy_var_scatter_add (store : Int → Int) (indices values : List Int) : Int → Int :=
  (indices.zip values).foldl (fun s p => fun k => if k = p.1 then s k + p.2 else s k) store

/-- Modelled from the spec: `dummy_var_scatter_update(handle, indices, values)`
is the native kernel that overwrites the row at each paired index,
processing the pairs in order. -/
def dummy_var_scatter_update (store : Int → Int) (indices values : List Int) : Int → Int :=
  (indices.zip values).foldl (fun s p => fun k => if k = p.1 then p.2 else s k) store

/-- Modelled from the spec: `dummy_var_export(handle)` retrieves the full
(index, value) contents of the dynamic store; with the store modelled as a
total map, the contents are the map itself. -/
def dummy_var_export (store : Int → Int) : Int → Int :=
  store

/-- Modelled from the spec: `dummy_var_assign(handle, indices, values)`
overwrites the store contents at the given indices with the given values. -/
def dummy_var_assign (store : Int → Int) (indices values : List Int) : Int → Int :=
  dummy_var_scatter_update store indices values

/-- The state of one `DynamicVariable` instance.

`tf_handle` is the handle made by the `ResourceVariable` base
constructor, `dummy_handle` the one made by `dummy_var_handle`;
`handle` (`self._handle`) is the active one.  `staticBuffer` models the
value held by the framework-side dense variable (rows abstracted to one
integer each, as in `store`). -/
structure DynamicVariable where
  key_type : TFDType
  handle_dtype : TFDType
  dimension : Nat
  indices : Option Tensor
  mode : Option String
  tf_handle : Nat
  dummy_handle : Nat
  handle : Nat
  store : Int → Int
  staticBuffer : List Int

/-- `DynamicVariable.__init__`: defaults `key_type=tf.int64`,
`dtype=tf.float32`; `_indices = None`; the base constructor builds the
native handle (id 0) with initial value `[[0.0] * dimension]` (rows
abstracted to one value), then a fresh dummy handle (id 1) is created,
zero-initialized by `dummy_var_initialize` (modelled from the spec), and
installed as the active handle: `self._handle = self._dummy_handle`. -/
def DynamicVariable.init (dimension : Nat) (key_type : Option TFDType)
    (dtype : Option TFDType) (mode : Option String) : DynamicVariable :=
  { key_type := key_type.getD TFDType.int64
    handle_dtype := dtype.getD TFDType.float32
    dimension := dimension
    indices := none
    mode := mode
    tf_handle := 0
    dummy_handle := 1
    handle := 1
    store := fun _ => 0
    staticBuffer := [0] }

/-- `is_static(self)`: `self._handle is self._tf_handle`. -/
def DynamicVariable.is_static (st : DynamicVariable) : Bool :=
  st.handle == st.tf_handle

/-- `sparse_read` in dynamic mode casts `int32` index tensors to `int64`
before calling the native kernel. -/
def castIndices (indices : Tensor) : Tensor :=
  if indices.dtype = TFDType.int32 then { indices with dtype := TFDType.int64 } else indices

/-- Result of `sparse_read`: either a verbatim delegation to
`ResourceVariable.sparse_read` (static mode) or the native read. -/
inductive ReadRet
  | base (indices : Tensor) (name : Option String)
  | native (values : List Int)
deriving DecidableEq, Repr

/-- `sparse_read(self, indices, name=None)`: static mode delegates to the
base class; dynamic mode casts `int32` indices to `int64` and calls
`dummy_var_sparse_read`.  No exception path and no state change. -/
def DynamicVariable.sparse_read (st : DynamicVariable) (indices : Tensor)
    (name : Option String) : ReadRet :=
  if st.is_static then ReadRet.base indices name
  else ReadRet.native (dummy_var_sparse_read st.store (castIndices indices).data)

/-- Result of a scatter method: a verbatim delegation to the base class
(static mode, carrying the arguments unchanged) or the native path. -/
inductive ScatterRet
  | base (sparse_delta : PyValue) (use_locking : Bool) (name : Option String)
  | native
deriving DecidableEq, Repr

/-- `scatter_sub(self, sparse_delta, use_locking=False, name=None)`:
static mode delegates verbatim; dynamic mode requires an `IndexedSlices`
(`TypeError` otherwise) and calls `dummy_var_scatter_add` with the
negated values. -/
def DynamicVariable.scatter_sub (st : DynamicVariable) (sparse_delta : PyValue)
    (use_locking : Bool) (name : Option String) :
    Except PyError (ScatterRet × DynamicVariable) :=
  if st.is_static then Except.ok (ScatterRet.base sparse_delta use_locking name, st)
  else
    match sparse_delta with
    | PyValue.indexedSlices d =>
        Except.ok (ScatterRet.native,
          { st with store :=
              dummy_var_scatter_add st.store d.indices.data (d.values.map (fun v => -v)) })
    | PyValue.other s =>
        Except.error (PyError.typeError ("sparse_delta is not IndexedSlices: " ++ s))

/-- `scatter_add(self, sparse_delta, use_locking=False, name=None)`:
static mode delegates verbatim; dynamic mode requires an `IndexedSlices`
(`TypeError` otherwise) and calls `dummy_var_scatter_add`. -/
def DynamicVariable.scatter_add (st : DynamicVariable) (sparse_delta : PyValue)
    (use_locking : Bool) (name : Option String) :
    Except PyError (ScatterRet × DynamicVariable) :=
  if st.is_static then Except.ok (ScatterRet.base sparse_delta use_locking name, st)
  else
    match sparse_delta with
    | PyValue.indexedSlices d =>
        Except.ok (ScatterRet.native,
          { st with store := dummy_var_scatter_add st.store d.indices.data d.values })
    | PyValue.other s =>
        Except.error (PyError.typeError ("sparse_delta is not IndexedSlices: " ++ s))

/-- `scatter_update(self, sparse_delta, use_locking=False, name=None)`:
static mode delegates verbatim; dynamic mode requires an `IndexedSlices`
(`TypeError` otherwise) and calls `dummy_var_scatter_update`. -/
def DynamicVariable.scatter_update (st : DynamicVariable) (sparse_delta : PyValue)
    (use_locking : Bool) (name : Option String) :
    Except PyError (ScatterRet × DynamicVariable) :=
  if st.is_static then Except.ok (ScatterRet.base sparse_delta use_locking name, st)
  else
    match sparse_delta with
    | PyValue.indexedSlices d =>
        Except.ok (ScatterRet.native,
          { st with store := dummy_var_scatter_update st.store d.indices.data d.values })
    | PyValue.other s =>
        Except.error (PyError.typeError ("sparse_delta is not IndexedSlices: " ++ s))

/-- `to_static(self, indices)`: only when `not self.is_static() and
self._indices is None`.  It reads `sparse_read(indices)` while still
dynamic, records `self._indices = indices`, activates the native handle
(`self._handle = self._tf_handle`), and delegates `assign(buffer)` to the
base class, which stores the read rows as the dense value.  Otherwise it
raises `RuntimeError`. -/
def DynamicVariable.to_static (st : DynamicVariable) (indices : Tensor) :
    Except PyError DynamicVariable :=
  if st.is_static = false ∧ st.indices = none then
    let buffer :=
      match st.sparse_read indices none with
      | ReadRet.native b => b
      | ReadRet.base _ _ => []   -- unreachable: the guard ensures dynamic mode
    Except.ok { st with
      indices := some indices
      handle := st.tf_handle
      staticBuffer := buffer }
  else
    Except.error (PyError.runtimeError "to_static() must be called in dynamic mode.")

/-- `to_dynamic(self)`: only when static.  It reads the full dense value
(`read_value()`), builds `IndexedSlices(buffer, self._indices)`, clears
`self._indices`, re-activates the dummy handle, and applies the delta via
`scatter_update`, which is now the native `dummy_var_scatter_update`.
When the instance is already dynamic it raises `RuntimeError`.  (A static
state with `_indices is None` would pass `None` indices to the native
kernel; that state is unreachable for constructed instances and is
modelled as a `ValueError`.) -/
def DynamicVariable.to_dynamic (st : DynamicVariable) :
    Except PyError DynamicVariable :=
  if st.is_static then
    let buffer := st.staticBuffer
    match st.indices with
    | some idx =>
        Except.ok { st with
          indices := none
          handle := st.dummy_handle
          store := dummy_var_scatter_update st.store idx.data buffer }
    | none => Except.error (PyError.valueError "IndexedSlices indices is None")
  else
    Except.error (PyError.runtimeError "to_dynamic() must be called in static mode.")

/-- Python `m.split(":")` on the character list of `m`: splits at every
colon; an empty string yields one empty piece. -/
def splitColon : List Char → List (List Char)
  | [] => [[]]
  | c :: rest =>
      let r := splitColon rest
      if c = ':' then [] :: r
      else
        match r with
        | h :: t => (c :: h) :: t
        | [] => [[c]]

/-- Decimal digits to a number, `none` on any non-digit (helper for
Python `int(s)`). -/
def decDigitsAux : List Char → Nat → Option Nat
  | [], acc => some acc
  | c :: rest, acc =>
      if c.isDigit then decDigitsAux rest (acc * 10 + (c.toNat - 48)) else none

/-- Python `int(s)` on a character list: an optional sign followed by at
least one decimal digit (surrounding whitespace and digit separators are
not modelled); `none` where Python raises `ValueError`. -/
def parsePyInt : List Char → Option Int
  | [] => none
  | c :: rest =>
      if c = '-' then
        match rest with
        | [] => none
        | _ => (decDigitsAux rest 0).map (fun n => -(n : Int))
      else if c = '+' then
        match rest with
        | [] => none
        | _ => (decDigitsAux rest 0).map (fun n => (n : Int))
      else (decDigitsAux (c :: rest) 0).map (fun n => (n : Int))

/-- `target_gpu(self)` with `num_gpus()` (external `communication`
module, modelled from the spec as a parameter): when the mode string
starts with `"localized"`, parse the piece after the first colon as the
device index; raise `RuntimeError` when it is `>= num_gpus()`; a missing
piece or non-integer piece is a native Python `IndexError` or
`ValueError`.  Otherwise return `-1`. -/
def DynamicVariable.target_gpu (st : DynamicVariable) (numGpus : Nat) :
    Except PyError Int :=
  match st.mode with
  | some m =>
      if "localized".data.isPrefixOf m.data then
        match (splitColon m.data)[1]? with
        | none => Except.error (PyError.indexError "list index out of range")
        | some s =>
            match parsePyInt s with
            | none => Except.error (PyError.valueError "invalid literal for int with base 10")
            | some t =>
                if (numGpus : Int) ≤ t then
                  Except.error (PyError.runtimeError
                    "cannot put embedding table on the requested GPU")
                else Except.ok t
      else Except.ok (-1)
  | none => Except.ok (-1)

/-- A verbatim delegation to a `ResourceVariable` base-class method:
the method name and the untouched arguments.  The base class is host
framework code outside this repository, so its effect is not modelled. -/
structure BaseCall where
  method : String
  args : List PyValue
deriving DecidableEq, Repr

/-- The shared shape of every method in the "only supported in static
mode" block: static mode delegates to the base class unchanged, dynamic
mode raises `NotImplementedError`. -/
def DynamicVariable.staticOnly (st : DynamicVariable) (method : String)
    (args : List PyValue) : Except PyError BaseCall :=
  if st.is_static then Except.ok { method := method, args := args }
  else Except.error (PyError.notImplementedError
    (method ++ "() is not supported in dynamic mode."))

/-- `is_initialized(self)`. -/
def DynamicVariable.isInitialized (st : DynamicVariable) (args : List PyValue) :
    Except PyError BaseCall :=
  st.staticOnly "is_initialized" args

/-- `value(self)`. -/
def DynamicVariable.value (st : DynamicVariable) (args : List PyValue) :
    Except PyError BaseCall :=
  st.staticOnly "value" args

/-- `_gather_saveables_for_checkpoint(self)` (checkpoint save). -/
def DynamicVariable.gather_saveables_for_checkpoint (st : DynamicVariable)
    (args : List PyValue) : Except PyError BaseCall :=
  st.staticOnly "_gather_saveables_for_checkpoint" args

/-- `gather_nd(self, *args, **kwargs)`. -/
def DynamicVariable.gather_nd (st : DynamicVariable) (args : List PyValue) :
    Except PyError BaseCall :=
  st.staticOnly "gather_nd" args

/-- `assign_add(self, *args, **kwargs)`. -/
def DynamicVariable.assign_add (st : DynamicVariable) (args : List PyValue) :
    Except PyError BaseCall :=
  st.staticOnly "assign_add" args

/-- `assign(self, *args, **kwargs)`. -/
def DynamicVariable.assign (st : DynamicVariable) (args : List PyValue) :
    Except PyError BaseCall :=
  st.staticOnly "assign" args

/-- `__int__(self, *args, **kwargs)` (numeric coercion). -/
def DynamicVariable.py_int (st : DynamicVariable) (args : List PyValue) :
    Except PyError BaseCall :=
  st.staticOnly "__int__" args

/-- `__deepcopy__(self, *args, **kwargs)`: raises `NotImplementedError`
unconditionally (the "not supported both in static mode and dynamic
mode" block). -/
def DynamicVariable.deepcopy (_st : DynamicVariable) (_args : List PyValue) :
    Except PyError BaseCall :=
  Except.error (PyError.notImplementedError "__deepcopy__() is not supported.")

/-- `__reduce__(self, *args, **kwargs)` (pickling): raises
`NotImplementedError` unconditionally. -/
def DynamicVariable.py_reduce (_st : DynamicVariable) (_args : List PyValue) :
    Except PyError BaseCall :=
  Except.error (PyError.notImplementedError "__reduce__() is not supported.")

/-- `to_proto(self, *args, **kwargs)`: raises `NotImplementedError`
unconditionally. -/
def DynamicVariable.to_proto (_st : DynamicVariable) (_args : List PyValue) :
    Except PyError BaseCall :=
  Except.error (PyError.notImplementedError "to_proto() is not supported.")

/-- `from_proto(*args, **kwargs)` (a staticmethod, no `self`): raises
`NotImplementedError` unconditionally. -/
def DynamicVariable.from_proto (_args : List PyValue) : Except PyError BaseCall :=
  Except.error (PyError.notImplementedError "from_proto() is not supported.")

/-- `set_shape(self, *args, **kwargs)`: raises `NotImplementedError`
unconditionally. -/
def DynamicVariable.set_shape (_st : DynamicVariable) (_args : List PyValue) :
    Except PyError BaseCall :=
  Except.error (PyError.notImplementedError "set_shape() is not supported.")

/-- The argument of the free functions `export` / `assign`: a
`DynamicVariable` or any other Python object. -/
inductive PyVar
  | dynamicVariable (st : DynamicVariable)
  | other (s : String)

/-- Free function `export(var)`: when `var` is a `DynamicVariable` it
calls `dummy_var_export` on `var.handle` (the ACTIVE handle, which must
be the dummy handle for the native kernel to apply) and returns the
exported contents; for any other input the `isinstance` guard fails and
the function returns `None` (`Except.ok none`) without any native call. -/
def sok_export (var : PyVar) : Except PyError (Option (Int → Int)) :=
  match var with
  | PyVar.dynamicVariable st =>
      if st.handle = st.dummy_handle then
        Except.ok (some (dummy_var_export st.store))
      else
        Except.error (PyError.runtimeError "dummy_var_export applied to a non-dummy handle")
  | PyVar.other _ => Except.ok none

/-- Free function `assign(var, indices, values)`: when `var` is a
`DynamicVariable` it calls `dummy_var_assign` on the active handle and
returns the updated contents; otherwise it returns `None` without any
native call. -/
def sok_assign (var : PyVar) (indices values : List Int) :
    Except PyError (Option (Int → Int)) :=
  match var with
  | PyVar.dynamicVariable st =>
      if st.handle = st.dummy_handle then
        Except.ok (some (dummy_var_assign st.store indices values))
      else
        Except.error (PyError.runtimeError "dummy_var_assign applied to a non-dummy handle")
  | PyVar.other _ => Except.ok none

/-- Per-key net contribution of a list of (index, value) pairs: the sum
of the values paired with key `k`. -/
def addContrib (l : List (Int × Int)) (k : Int) : Int :=
  (l.map (fun p => if k = p.1 then p.2 else 0)).sum

/-! ## Concrete instances used by witnesses and counterexamples -/

/-- A freshly constructed variable: dimension 4, all defaults (dynamic
mode, no pending indices). -/
def freshVar : DynamicVariable := DynamicVariable.init 4 none none none

/-- A concrete `int64` index tensor. -/
def idxTensor : Tensor := { dtype := TFDType.int64, data := [3, 8] }

/-- The state of `freshVar` after `to_static(idxTensor)`: static mode
with the index set pending and the read rows in the dense buffer. -/
def staticVar : DynamicVariable :=
  { freshVar with
    indices := some idxTensor
    handle := freshVar.tf_handle
    staticBuffer := dummy_var_sparse_read freshVar.store (castIndices idxTensor).data }

/-- A concrete sparse delta with a repeated index. -/
def deltaEx : IndexedSlices :=
  { values := [2, 5], indices := { dtype := TFDType.int64, data := [1, 1] } }

/-- `freshVar` after `scatter_add(deltaEx)` in dynamic mode. -/
def scatterMid : DynamicVariable :=
  { freshVar with
    store := dummy_var_scatter_add freshVar.store deltaEx.indices.data deltaEx.values }

/-- `scatterMid` after `scatter_sub(deltaEx)` in dynamic mode. -/
def scatterFin : DynamicVariable :=
  { scatterMid with
    store := dummy_var_scatter_add scatterMid.store deltaEx.indices.data
      (deltaEx.values.map (fun v => -v)) }

/-- A variable whose mode requests GPU 3. -/
def locVar : DynamicVariable := DynamicVariable.init 4 none none (some "localized:3")

/-! ## Supporting lemmas -/

@[simp]
theorem raisesRuntimeError_ok {α : Type} (a : α) :
    raisesRuntimeError (Except.ok a) = false := rfl

@[simp]
theorem raisesTypeError_ok {α : Type} (a : α) :
    raisesTypeError (Except.ok a) = false := rfl

@[simp]
theorem raisesNotImplementedError_ok {α : Type} (a : α) :
    raisesNotImplementedError (Except.ok a) = false := rfl

theorem is_static_eq (st : DynamicVariable) :
    st.is_static = true ↔ st.handle = st.tf_handle := by
  simp [DynamicVariable.is_static]

theorem is_static_eq_false (st : DynamicVariable) :
    st.is_static = false ↔ st.handle ≠ st.tf_handle := by
  simp [DynamicVariable.is_static]

/-! ## Claims -/

/-- C1: for every `DynamicVariable`, `is_static()` is true iff the active
handle is the originally-constructed native (TensorFlow) handle; and
immediately after construction the active handle is the dynamic (dummy)
handle, so `is_static()` is false. -/
theorem is_static_iff_active_handle_native :
    (∀ st : DynamicVariable, st.is_static = true ↔ st.handle = st.tf_handle) ∧
    (∀ (dim : Nat) (kt dt : Option TFDType) (mode : Option String),
      (DynamicVariable.init dim kt dt mode).handle =
          (DynamicVariable.init dim kt dt mode).dummy_handle ∧
        (DynamicVariable.init dim kt dt mode).is_static = false) := by
  refine ⟨fun st => is_static_eq st, fun dim kt dt mode => ⟨rfl, rfl⟩⟩

/-- C2: `to_static(indices)` raises `RuntimeError` iff the instance is
already static or a prior index set is pending; consequently a second
`to_static` without an intervening `to_dynamic` always raises. -/
theorem to_static_raises_iff :
    ∀ (st : DynamicVariable) (indices indices2 : Tensor),
      (raisesRuntimeError (st.to_static indices) = true ↔
        (st.is_static = true ∨ st.indices ≠ none)) ∧
      (∀ st', st.to_static indices = Except.ok st' →
        raisesRuntimeError (st'.to_static indices2) = true) := by
  intro st indices indices2
  constructor
  · by_cases h : st.is_static = false ∧ st.indices = none
    · rcases h with ⟨h1, h2⟩
      simp [DynamicVariable.to_static, h1, h2]
    · simp [DynamicVariable.to_static, h, raisesRuntimeError]
      rcases not_and_or.mp h with h1 | h2
      · left
        cases hb : st.is_static with
        | true => rfl
        | false => exact absurd hb h1
      · right; exact h2
  · intro st' hok
    by_cases h : st.is_static = false ∧ st.indices = none
    · simp only [DynamicVariable.to_static, if_pos h] at hok
      have hst : st'.is_static = true := by
        cases hok
        simp [DynamicVariable.is_static]
      simp [DynamicVariable.to_static, hst, raisesRuntimeError]
    · simp [DynamicVariable.to_static, if_neg h] at hok

/-- C10: the free functions `export(var)` and `assign(var, indices,
values)` applied to anything that is not a `DynamicVariable` perform no
native operation and return `None` (no exception). -/
theorem export_assign_non_dynamic_return_none :
    ∀ (s : String) (indices values : List Int),
      sok_export (PyVar.other s) = Except.ok none ∧
      sok_assign (PyVar.other s) indices values = Except.ok none := by
  intro s indices values
  exact ⟨rfl, rfl⟩

/-- C2 witness: on the concrete static-mode instance `staticVar`,
`to_static` raises `RuntimeError`. -/
theorem to_static_raises_iff_witness :
    raisesRuntimeError (staticVar.to_static idxTensor) = true :=
  (to_static_raises_iff staticVar idxTensor idxTensor).1.mpr (Or.inl rfl)

/-- C3: `to_dynamic()` raises `RuntimeError` exactly when the instance is
dynamic; in static mode (with the recorded index set, which every
statically-switched instance has) it reads the dense buffer, clears the
stored indices, re-activates the dummy handle, and scatter-applies the
delta keyed by the previously recorded indices. -/
theorem to_dynamic_spec :
    ∀ (st : DynamicVariable),
      (st.is_static = false →
        st.to_dynamic =
          Except.error (PyError.runtimeError "to_dynamic() must be called in static mode.")) ∧
      (∀ idx, st.is_static = true → st.indices = some idx →
        st.to_dynamic = Except.ok { st with
          indices := none
          handle := st.dummy_handle
          store := dummy_var_scatter_update st.store idx.data st.staticBuffer }) := by
  intro st
  constructor
  · intro h
    simp [DynamicVariable.to_dynamic, h]
  · intro idx h hidx
    simp [DynamicVariable.to_dynamic, h, hidx]

/-- C3 witness: `to_dynamic` on the concrete static instance `staticVar`
succeeds and produces exactly the scatter-applied dynamic state. -/
theorem to_dynamic_spec_witness :
    staticVar.to_dynamic = Except.ok { staticVar with
      indices := none
      handle := staticVar.dummy_handle
      store := dummy_var_scatter_update staticVar.store idxTensor.data staticVar.staticBuffer } :=
  (to_dynamic_spec staticVar).2 idxTensor rfl rfl

/-- C4: from a dynamic instance with no pending index set, `to_static`
followed by `to_dynamic` succeeds, restores the dynamic (dummy) handle as
the active handle, and leaves the stored index set cleared (`None`), the
same as before the pair of calls. -/
theorem to_static_then_to_dynamic_roundtrip :
    ∀ (st : DynamicVariable) (idx : Tensor),
      st.tf_handle ≠ st.dummy_handle → st.handle = st.dummy_handle → st.indices = none →
      ((st.to_static idx).bind DynamicVariable.to_dynamic =
          Except.ok { st with
            indices := none
            handle := st.dummy_handle
            staticBuffer := dummy_var_sparse_read st.store (castIndices idx).data
            store := dummy_var_scatter_update st.store idx.data
              (dummy_var_sparse_read st.store (castIndices idx).data) } ∧
        st.dummy_handle = st.handle ∧ st.indices = none) := by
  intro st idx h1 h2 h3
  have hf : st.is_static = false := by
    rw [is_static_eq_false, h2]
    exact fun hcon => h1 hcon.symm
  have hne : ¬ st.handle = st.tf_handle := (is_static_eq_false st).mp hf
  refine ⟨?_, h2.symm, h3⟩
  simp [DynamicVariable.to_static, DynamicVariable.to_dynamic, DynamicVariable.sparse_read,
    hf, h3, hne, Except.bind, DynamicVariable.is_static]

/-- C4 witness: the round trip on the fresh concrete instance. -/
theorem to_static_then_to_dynamic_roundtrip_witness :
    (freshVar.to_static idxTensor).bind DynamicVariable.to_dynamic =
        Except.ok { freshVar with
          indices := none
          handle := freshVar.dummy_handle
          staticBuffer := dummy_var_sparse_read freshVar.store (castIndices idxTensor).data
          store := dummy_var_scatter_update freshVar.store idxTensor.data
            (dummy_var_sparse_read freshVar.store (castIndices idxTensor).data) } ∧
      freshVar.dummy_handle = freshVar.handle ∧ freshVar.indices = none :=
  to_static_then_to_dynamic_roundtrip freshVar idxTensor (by decide) rfl rfl

/-- C5: `sparse_read`, `scatter_add`, `scatter_sub` and `scatter_update`
each check the mode first: static mode delegates verbatim to the
framework base class; dynamic mode forwards to the corresponding native
dynamic-store operation, and the scatter operations raise `TypeError`
exactly when the `sparse_delta` argument is not an `IndexedSlices`. -/
theorem rw_ops_mode_dispatch :
    ∀ (st : DynamicVariable) (d : PyValue) (lock : Bool) (nm : Option String) (idx : Tensor),
      (st.is_static = true →
        st.sparse_read idx nm = ReadRet.base idx nm ∧
        st.scatter_add d lock nm = Except.ok (ScatterRet.base d lock nm, st) ∧
        st.scatter_sub d lock nm = Except.ok (ScatterRet.base d lock nm, st) ∧
        st.scatter_update d lock nm = Except.ok (ScatterRet.base d lock nm, st)) ∧
      (st.is_static = false →
        st.sparse_read idx nm =
          ReadRet.native (dummy_var_sparse_read st.store (castIndices idx).data) ∧
        (raisesTypeError (st.scatter_add d lock nm) = true ↔ d.isIndexedSlices = false) ∧
        (raisesTypeError (st.scatter_sub d lock nm) = true ↔ d.isIndexedSlices = false) ∧
        (raisesTypeError (st.scatter_update d lock nm) = true ↔ d.isIndexedSlices = false) ∧
        (∀ s, d = PyValue.indexedSlices s →
          st.scatter_add d lock nm = Except.ok (ScatterRet.native,
            { st with store := dummy_var_scatter_add st.store s.indices.data s.values }) ∧
          st.scatter_sub d lock nm = Except.ok (ScatterRet.native,
            { st with store :=
                dummy_var_scatter_add st.store s.indices.data (s.values.map (fun v => -v)) }) ∧
          st.scatter_update d lock nm = Except.ok (ScatterRet.native,
            { st with store := dummy_var_scatter_update st.store s.indices.data s.values }))) := by
  intro st d lock nm idx
  constructor
  · intro h
    simp [DynamicVariable.sparse_read, DynamicVariable.scatter_add,
      DynamicVariable.scatter_sub, DynamicVariable.scatter_update, h]
  · intro h
    refine ⟨by simp [DynamicVariable.sparse_read, h], ?_, ?_, ?_, ?_⟩
    · cases d <;>
        simp [DynamicVariable.scatter_add, h, raisesTypeError, PyValue.isIndexedSlices]
    · cases d <;>
        simp [DynamicVariable.scatter_sub, h, raisesTypeError, PyValue.isIndexedSlices]
    · cases d <;>
        simp [DynamicVariable.scatter_update, h, raisesTypeError, PyValue.isIndexedSlices]
    · intro s hs
      subst hs
      simp [DynamicVariable.scatter_add, DynamicVariable.scatter_sub,
        DynamicVariable.scatter_update, h]

/-- C5 witness: on the fresh dynamic instance, a non-`IndexedSlices`
delta raises `TypeError` and `sparse_read` takes the native path. -/
theorem rw_ops_mode_dispatch_witness :
    raisesTypeError (freshVar.scatter_add (PyValue.other "0") false none) = true ∧
    freshVar.sparse_read idxTensor none =
      ReadRet.native (dummy_var_sparse_read freshVar.store (castIndices idxTensor).data) :=
  have h := (rw_ops_mode_dispatch freshVar (PyValue.other "0") false none idxTensor).2 rfl
  ⟨h.2.1.mpr rfl, h.1⟩

/-- C6 counterexample: on the concrete static-mode instance `staticVar`,
`to_proto` does NOT delegate to the framework base class; it raises
`NotImplementedError`, contradicting the claim that every listed
operation delegates unchanged in static mode. -/
theorem static_to_proto_still_raises :
    staticVar.is_static = true ∧
    staticVar.to_proto [] =
      Except.error (PyError.notImplementedError "to_proto() is not supported.") :=
  ⟨rfl, rfl⟩

/-- C6 (amended): every listed framework operation raises
`NotImplementedError` in dynamic mode; in static mode `assign`,
`assign_add`, `gather_nd`, checkpoint save, `value`, `is_initialized`
and numeric coercion delegate to the framework base class unchanged,
while deep-copy, pickling, proto (de)serialization and shape mutation
raise `NotImplementedError` in static mode as well. -/
theorem unsupported_ops_dispatch :
    ∀ (st : DynamicVariable) (args : List PyValue),
      (st.is_static = false →
        raisesNotImplementedError (st.assign args) = true ∧
        raisesNotImplementedError (st.assign_add args) = true ∧
        raisesNotImplementedError (st.gather_nd args) = true ∧
        raisesNotImplementedError (st.gather_saveables_for_checkpoint args) = true ∧
        raisesNotImplementedError (st.value args) = true ∧
        raisesNotImplementedError (st.isInitialized args) = true ∧
        raisesNotImplementedError (st.py_int args) = true ∧
        raisesNotImplementedError (st.deepcopy args) = true ∧
        raisesNotImplementedError (st.py_reduce args) = true ∧
        raisesNotImplementedError (st.to_proto args) = true ∧
        raisesNotImplementedError (DynamicVariable.from_proto args) = true ∧
        raisesNotImplementedError (st.set_shape args) = true) ∧
      (st.is_static = true →
        st.assign args = Except.ok { method := "assign", args := args } ∧
        st.assign_add args = Except.ok { method := "assign_add", args := args } ∧
        st.gather_nd args = Except.ok { method := "gather_nd", args := args } ∧
        st.gather_saveables_for_checkpoint args =
          Except.ok { method := "_gather_saveables_for_checkpoint", args := args } ∧
        st.value args = Except.ok { method := "value", args := args } ∧
        st.isInitialized args = Except.ok { method := "is_initialized", args := args } ∧
        st.py_int args = Except.ok { method := "__int__", args := args } ∧
        raisesNotImplementedError (st.deepcopy args) = true ∧
        raisesNotImplementedError (st.py_reduce args) = true ∧
        raisesNotImplementedError (st.to_proto args) = true ∧
        raisesNotImplementedError (DynamicVariable.from_proto args) = true ∧
        raisesNotImplementedError (st.set_shape args) = true) := by
  intro st args
  constructor
  · intro h
    simp [DynamicVariable.assign, DynamicVariable.assign_add, DynamicVariable.gather_nd,
      DynamicVariable.gather_saveables_for_checkpoint, DynamicVariable.value,
      DynamicVariable.isInitialized, DynamicVariable.py_int, DynamicVariable.deepcopy,
      DynamicVariable.py_reduce, DynamicVariable.to_proto, DynamicVariable.from_proto,
      DynamicVariable.set_shape, DynamicVariable.staticOnly, h, raisesNotImplementedError]
  · intro h
    simp [DynamicVariable.assign, DynamicVariable.assign_add, DynamicVariable.gather_nd,
      DynamicVariable.gather_saveables_for_checkpoint, DynamicVariable.value,
      DynamicVariable.isInitialized, DynamicVariable.py_int, DynamicVariable.deepcopy,
      DynamicVariable.py_reduce, DynamicVariable.to_proto, DynamicVariable.from_proto,
      DynamicVariable.set_shape, DynamicVariable.staticOnly, h, raisesNotImplementedError]

/-- C6 witness: on the fresh dynamic instance, `assign` and `to_proto`
raise `NotImplementedError`. -/
theorem unsupported_ops_dispatch_witness :
    raisesNotImplementedError (freshVar.assign []) = true ∧
    raisesNotImplementedError (freshVar.to_proto []) = true :=
  have h := (unsupported_ops_dispatch freshVar []).1 rfl
  ⟨h.1, h.2.2.2.2.2.2.2.2.2.1⟩

theorem scatterAddFold_apply (l : List (Int × Int)) (store : Int → Int) (k : Int) :
    l.foldl (fun s p => fun j => if j = p.1 then s j + p.2 else s j) store k =
      store k + addContrib l k := by
  induction l generalizing store with
  | nil => simp [addContrib]
  | cons p t ih =>
      rw [List.foldl_cons, ih]
      by_cases hk : k = p.1
      · simp only [addContrib, List.map_cons, List.sum_cons, if_pos hk]
        ring
      · simp only [addContrib, List.map_cons, List.sum_cons, if_neg hk]
        ring

theorem dummy_var_scatter_add_apply (store : Int → Int) (indices values : List Int) (k : Int) :
    dummy_var_scatter_add store indices values k =
      store k + addContrib (indices.zip values) k :=
  scatterAddFold_apply (indices.zip values) store k

theorem addContrib_zip_neg (indices values : List Int) (k : Int) :
    addContrib (indices.zip (values.map (fun v => -v))) k =
      -addContrib (indices.zip values) k := by
  induction indices generalizing values with
  | nil => simp [addContrib]
  | cons i t ih =>
      cases values with
      | nil => simp [addContrib]
      | cons v vs =>
          simp only [List.map_cons, List.zip_cons_cons, addContrib, List.sum_cons] at *
          rw [ih vs]
          by_cases hk : k = i
          · rw [if_pos hk, if_pos hk]; ring
          · rw [if_neg hk, if_neg hk]; ring

/-- C7: in dynamic mode, `scatter_add(d)` followed by `scatter_sub(d)`
with the identical sparse delta is a net no-op on the exported (index,
value) contents of the dynamic store. -/
theorem scatter_add_then_sub_net_noop :
    ∀ (st : DynamicVariable) (d : IndexedSlices) (lock1 lock2 : Bool) (nm1 nm2 : Option String),
      st.is_static = false → st.handle = st.dummy_handle →
      ∀ r1 st1, st.scatter_add (PyValue.indexedSlices d) lock1 nm1 = Except.ok (r1, st1) →
      ∀ r2 st2, st1.scatter_sub (PyValue.indexedSlices d) lock2 nm2 = Except.ok (r2, st2) →
        sok_export (PyVar.dynamicVariable st2) = Except.ok (some (dummy_var_export st2.store)) ∧
        sok_export (PyVar.dynamicVariable st) = Except.ok (some (dummy_var_export st.store)) ∧
        (∀ k, dummy_var_export st2.store k = dummy_var_export st.store k) := by
  intro st d lock1 lock2 nm1 nm2 hdyn hdummy r1 st1 hadd r2 st2 hsub
  simp [DynamicVariable.scatter_add, hdyn] at hadd
  have hst1 : st1 = { st with
      store := dummy_var_scatter_add st.store d.indices.data d.values } := hadd.2.symm
  have hdyn1 : st1.is_static = false := by
    rw [hst1]; exact hdyn
  simp [DynamicVariable.scatter_sub, hdyn1] at hsub
  have hst2 : st2 = { st1 with
      store := dummy_var_scatter_add st1.store d.indices.data
        (d.values.map (fun v => -v)) } := hsub.2.symm
  have hh2 : st2.handle = st2.dummy_handle := by
    rw [hst2, hst1]; exact hdummy
  refine ⟨by simp [sok_export, hh2], by simp [sok_export, hdummy], ?_⟩
  intro k
  rw [hst2, hst1]
  simp only [dummy_var_export]
  rw [dummy_var_scatter_add_apply, dummy_var_scatter_add_apply, addContrib_zip_neg]
  ring

/-- C7 witness: the add-then-sub round trip on the fresh instance with a
repeated-index delta leaves the exported value at key 1 unchanged. -/
theorem scatter_add_then_sub_net_noop_witness :
    sok_export (PyVar.dynamicVariable scatterFin) =
        Except.ok (some (dummy_var_export scatterFin.store)) ∧
    dummy_var_export scatterFin.store 1 = dummy_var_export freshVar.store 1 :=
  have h := scatter_add_then_sub_net_noop freshVar deltaEx false false none none rfl rfl
    ScatterRet.native scatterMid rfl ScatterRet.native scatterFin rfl
  ⟨h.1, h.2.2 1⟩

/-- C8: reading `target_gpu` raises `RuntimeError` exactly when the
device index parsed from a mode string starting with `"localized"` is at
least the number of available GPUs; a `None` mode or a non-localized
mode yields `-1` with no error. -/
theorem target_gpu_spec :
    ∀ (st : DynamicVariable) (n : Nat),
      (st.mode = none → st.target_gpu n = Except.ok (-1)) ∧
      (∀ m, st.mode = some m → "localized".data.isPrefixOf m.data = false →
        st.target_gpu n = Except.ok (-1)) ∧
      (∀ m s t, st.mode = some m → "localized".data.isPrefixOf m.data = true →
        (splitColon m.data)[1]? = some s → parsePyInt s = some t →
        ((raisesRuntimeError (st.target_gpu n) = true ↔ (n : Int) ≤ t) ∧
          (t < (n : Int) → st.target_gpu n = Except.ok t))) := by
  intro st n
  refine ⟨?_, ?_, ?_⟩
  · intro h
    simp [DynamicVariable.target_gpu, h]
  · intro m hm hpre
    simp [DynamicVariable.target_gpu, hm, hpre]
  · intro m s t hm hpre hsplit hparse
    constructor
    · by_cases hle : (n : Int) ≤ t
      · simp [DynamicVariable.target_gpu, hm, hpre, hsplit, hparse, hle, raisesRuntimeError]
      · simp [DynamicVariable.target_gpu, hm, hpre, hsplit, hparse, hle, raisesRuntimeError]
    · intro hlt
      have hle : ¬ (n : Int) ≤ t := not_le.mpr hlt
      simp [DynamicVariable.target_gpu, hm, hpre, hsplit, hparse, hle]

/-- C8 witness: with mode `"localized:3"` and 2 available GPUs,
`target_gpu` raises `RuntimeError`; with 4 GPUs it returns 3. -/
theorem target_gpu_spec_witness :
    raisesRuntimeError (locVar.target_gpu 2) = true ∧
    locVar.target_gpu 4 = Except.ok 3 :=
  have h2 := (target_gpu_spec locVar 2).2.2 "localized:3" ['3'] 3 rfl (by decide)
    (by decide) (by decide)
  have h4 := (target_gpu_spec locVar 4).2.2 "localized:3" ['3'] 3 rfl (by decide)
    (by decide) (by decide)
  ⟨h2.1.mpr (by decide), h4.2 (by decide)⟩

/-- C9: the key type, value dtype and embedding dimension recorded at
construction are never changed by `to_static`, `to_dynamic`, or any of
the scatter write operations (`sparse_read` returns a value and leaves
the state untouched by construction). -/
theorem shape_fields_immutable :
    ∀ (st : DynamicVariable),
      (∀ idx st', st.to_static idx = Except.ok st' →
        st'.key_type = st.key_type ∧ st'.handle_dtype = st.handle_dtype ∧
          st'.dimension = st.dimension) ∧
      (∀ st', st.to_dynamic = Except.ok st' →
        st'.key_type = st.key_type ∧ st'.handle_dtype = st.handle_dtype ∧
          st'.dimension = st.dimension) ∧
      (∀ d lock nm r st', st.scatter_add d lock nm = Except.ok (r, st') →
        st'.key_type = st.key_type ∧ st'.handle_dtype = st.handle_dtype ∧
          st'.dimension = st.dimension) ∧
      (∀ d lock nm r st', st.scatter_sub d lock nm = Except.ok (r, st') →
        st'.key_type = st.key_type ∧ st'.handle_dtype = st.handle_dtype ∧
          st'.dimension = st.dimension) ∧
      (∀ d lock nm r st', st.scatter_update d lock nm = Except.ok (r, st') →
        st'.key_type = st.key_type ∧ st'.handle_dtype = st.handle_dtype ∧
          st'.dimension = st.dimension) := by
  intro st
  refine ⟨?_, ?_, ?_, ?_, ?_⟩
  · intro idx st' h
    by_cases hc : st.is_static = false ∧ st.indices = none
    · simp [DynamicVariable.to_static, hc] at h
      subst h
      exact ⟨rfl, rfl, rfl⟩
    · simp [DynamicVariable.to_static, hc] at h
  · intro st' h
    by_cases hc : st.is_static = true
    · cases hidx : st.indices with
      | some idx =>
          simp [DynamicVariable.to_dynamic, hc, hidx] at h
          subst h
          exact ⟨rfl, rfl, rfl⟩
      | none => simp [DynamicVariable.to_dynamic, hc, hidx] at h
    · simp [DynamicVariable.to_dynamic, hc] at h
  · intro d lock nm r st' h
    by_cases hc : st.is_static = true
    · simp [DynamicVariable.scatter_add, hc] at h
      rw [← h.2]
      exact ⟨rfl, rfl, rfl⟩
    · cases d with
      | indexedSlices s =>
          simp [DynamicVariable.scatter_add, hc] at h
          rw [← h.2]
          exact ⟨rfl, rfl, rfl⟩
      | other s => simp [DynamicVariable.scatter_add, hc] at h
  · intro d lock nm r st' h
    by_cases hc : st.is_static = true
    · simp [DynamicVariable.scatter_sub, hc] at h
      rw [← h.2]
      exact ⟨rfl, rfl, rfl⟩
    · cases d with
      | indexedSlices s =>
          simp [DynamicVariable.scatter_sub, hc] at h
          rw [← h.2]
          exact ⟨rfl, rfl, rfl⟩
      | other s => simp [DynamicVariable.scatter_sub, hc] at h
  · intro d lock nm r st' h
    by_cases hc : st.is_static = true
    · simp [DynamicVariable.scatter_update, hc] at h
      rw [← h.2]
      exact ⟨rfl, rfl, rfl⟩
    · cases d with
      | indexedSlices s =>
          simp [DynamicVariable.scatter_update, hc] at h
          rw [← h.2]
          exact ⟨rfl, rfl, rfl⟩
      | other s => simp [DynamicVariable.scatter_update, hc] at h

/-- C9 witness: the concrete `to_static` transition from `freshVar` to
`staticVar` preserves key type, dtype and dimension. -/
theorem shape_fields_immutable_witness :
    staticVar.key_type = freshVar.key_type ∧
    staticVar.handle_dtype = freshVar.handle_dtype ∧
    staticVar.dimension = freshVar.dimension :=
  (shape_fields_immutable freshVar).1 idxTensor staticVar rfl

end SOK
